import Mathlib

/-!
Verification of the core of the clear_on_drop crate (src/clear.rs,
src/clear_on_drop.rs, src/clearable.rs, src/hide.rs) against its
natural-language specification.

Modelling conventions:
* Machine memory is a list of byte values (Nat).
* A Rust type T used with the Clear trait is modelled by a TypeModel record:
  its size in bytes, the byte-level effect of ptr.drop_in_place on the
  representation, and what InitializableFromZeroed.initialize writes
  (some bytes for the Default-based impl, which writes the default value;
  none for the empty impl used by slices of ZeroSafe elements).
* The body of the blanket impl of Clear.clear is modelled as a literal
  sequence of primitive steps mirroring the statement order of the source,
  together with an interpreter over byte states, so that ordering claims
  (drop, then zero-fill, then reinitialize) are about the step list itself.
* The ClearOnDrop wrapper is modelled as a state holding the bytes of its
  internal _place field (the handle), the bytes of the pointed-to target,
  a bookkeeping flag recording whether the compiler will still run the
  drop glue of this instance (mem.forget sets it to false; it is not a
  stored byte), and a trace of clearing events.
-/

/-- A byte region: the in-memory representation of a value. -/
abbrev Bytes := List Nat

/-- Model of a Rust type as used by the blanket impl of Clear in
src/clear.rs: size in bytes (mem.size_of_val), the byte-level effect of
ptr.drop_in_place, and the bytes written by
InitializableFromZeroed.initialize over the zeroed place. initWrite is
some d for the impl over T with Default (it writes the default value
representation d), and none for the empty impl over slices of ZeroSafe
elements, which leaves the zeroed bytes as they are. -/
structure TypeModel where
  size : Nat
  dropEffect : Bytes → Bytes
  initWrite : Option Bytes

/-- The primitive operations appearing in the body of the blanket
Clear.clear impl (src/clear.rs lines 60 to 71), in source order. -/
inductive ClearStep where
  | dropInPlace : ClearStep
  | writeBytes : Nat → Nat → ClearStep
  | hideMem : ClearStep
  | reinit : ClearStep
deriving DecidableEq

/-- Overwrite the first d.length bytes of region b with d, keeping the
rest, as ptr.write does at byte level. -/
def writeFirst (d : Bytes) (b : Bytes) : Bytes :=
  d ++ b.drop d.length

/-- One step of the Clear.clear body acting on the byte representation.
ptr.write_bytes v n fills the first n bytes with v; hide_mem_impl does
not change the bytes (it only constrains the optimizer); reinit is
Self.initialize called on the place. -/
def stepRun (tm : TypeModel) (b : Bytes) : ClearStep → Bytes
  | ClearStep.dropInPlace => tm.dropEffect b
  | ClearStep.writeBytes v n => writeFirst (List.replicate n v) b
  | ClearStep.hideMem => b
  | ClearStep.reinit =>
      match tm.initWrite with
      | none => b
      | some d => writeFirst d b

/-- The statement sequence of the blanket Clear.clear impl, in source
order: drop_in_place, write_bytes 0 size, hide_mem_impl, initialize. -/
def clearBody (tm : TypeModel) : List ClearStep :=
  [ClearStep.dropInPlace, ClearStep.writeBytes 0 tm.size,
   ClearStep.hideMem, ClearStep.reinit]

/-- Run a list of clear steps over a byte region. -/
def runSteps (tm : TypeModel) (b : Bytes) (l : List ClearStep) : Bytes :=
  l.foldl (stepRun tm) b

/-- The full effect of Clear.clear on the byte representation. -/
def clearBytes (tm : TypeModel) (b : Bytes) : Bytes :=
  runSteps tm b (clearBody tm)

/-- The post-zero value of a type: all-zero bytes for the no-op
initialize impl (slices of ZeroSafe elements), and the declared default
representation written over the zeroed bytes for types with Default. -/
def postZero (tm : TypeModel) : Bytes :=
  match tm.initWrite with
  | none => List.replicate tm.size 0
  | some d => writeFirst d (List.replicate tm.size 0)

/-- Concrete model of u32 under Default: four bytes, trivial drop, and
initialize writes the default representation (zero). -/
def tmU32 : TypeModel :=
  { size := 4, dropEffect := fun b => b, initWrite := some [0, 0, 0, 0] }

/-- Concrete model of a four-byte slice of ZeroSafe elements: initialize
is a no-op. -/
def tmSliceU8 : TypeModel :=
  { size := 4, dropEffect := fun b => b, initWrite := none }

/-! ## The ClearOnDrop wrapper (src/clear_on_drop.rs) -/

/-- Events observable on the wrapped place during the wrapper lifecycle. -/
inductive WEvent where
  | clearInvoked : WEvent
  | cloneFromPlace : WEvent
deriving DecidableEq

/-- True exactly on the clear-invocation event. -/
def isClearEvent : WEvent → Bool
  | WEvent.clearInvoked => true
  | WEvent.cloneFromPlace => false

/-- Number of Clear.clear invocations recorded in a trace. -/
def countClear (tr : List WEvent) : Nat :=
  tr.countP isClearEvent

/-- State of a ClearOnDrop wrapper instance together with the storage it
points to. slot holds the bytes of the internal _place field (the handle
value, for example the pointer of a Box); target holds the bytes of the
dereferenced place P.Target; dropEnabled records whether the compiler
will still run the drop glue of this instance (true from construction,
set to false by mem.forget) - it is bookkeeping about control flow, not
a stored byte of the wrapper; trace records clearing events. -/
structure WState where
  slot : Bytes
  target : Bytes
  dropEnabled : Bool
  trace : List WEvent
deriving DecidableEq

namespace ClearOnDrop

/-- ClearOnDrop.new: stores the handle; drop glue is armed. -/
def new (slot target : Bytes) : WState :=
  { slot := slot, target := target, dropEnabled := true, trace := [] }

/-- The self.clear() call appearing in Drop.drop, into_place and
clone_from: it dereferences through _place and runs Clear.clear on the
target. -/
def selfClear (tm : TypeModel) (s : WState) : WState :=
  { s with target := clearBytes tm s.target,
           trace := s.trace ++ [WEvent.clearInvoked] }

/-- ClearOnDrop.into_uncleared_place: ptr.read copies the handle bytes
out of the slot (leaving the slot bytes untouched), then mem.forget
suppresses the drop glue of this instance. Returns the handle and the
resulting instance state. -/
def into_uncleared_place (s : WState) : Bytes × WState :=
  (s.slot, { s with dropEnabled := false })

/-- ClearOnDrop.into_place: c.clear() followed by into_uncleared_place. -/
def into_place (tm : TypeModel) (s : WState) : Bytes × WState :=
  into_uncleared_place (selfClear tm s)

/-- Scope exit: the compiler runs Drop.drop (which is self.clear())
exactly when the instance was neither moved nor forgotten; afterwards
the instance is gone, so its drop glue is disarmed. -/
def scopeExit (tm : TypeModel) (s : WState) : WState :=
  if s.dropEnabled then { selfClear tm s with dropEnabled := false } else s

/-- Clone.clone_from for ClearOnDrop: self.clear(), then
Clone.clone_from on the place, which copies the source target content
into the existing storage (no reallocation, slot unchanged). -/
def clone_from (tm : TypeModel) (s src : WState) : WState :=
  let s1 := selfClear tm s
  { s1 with target := src.target,
            trace := s1.trace ++ [WEvent.cloneFromPlace] }

end ClearOnDrop

/-! ## Transparent forwarding (src/clear_on_drop.rs, Deref through delegate_ops) -/

/-- The ClearOnDrop struct shape used for the forwarding impls: a single
field _place holding the handle, here over an abstract handle type. -/
structure CODWrap (π : Type) where
  _place : π

/-- Deref impl: forwards Deref.deref to the place. -/
def codDeref {π τ : Type} (deref : π → τ) (w : CODWrap π) : τ :=
  deref w._place

/-- DerefMut, AsMut, BorrowMut and IndexMut impls seen as place
transformers: a mutation of the target is forwarded unchanged to the
place. -/
def codUpdate {π : Type} (f : π → π) (w : CODWrap π) : CODWrap π :=
  { _place := f w._place }

/-- Hash impl: forwards Hash.hash of the place. -/
def codHash {π : Type} (hash : π → Nat) (w : CODWrap π) : Nat :=
  hash w._place

/-- PartialEq.eq impl between two wrappers: forwards to the places. -/
def codEq {π ρ : Type} (eq : π → ρ → Bool) (w : CODWrap π) (v : CODWrap ρ) : Bool :=
  eq w._place v._place

/-- PartialEq.ne impl between two wrappers: forwards to the places. -/
def codNe {π ρ : Type} (ne : π → ρ → Bool) (w : CODWrap π) (v : CODWrap ρ) : Bool :=
  ne w._place v._place

/-- PartialOrd.partial_cmp impl: forwards to the places. -/
def codCmpOpt {π ρ : Type} (pc : π → ρ → Option Ordering)
    (w : CODWrap π) (v : CODWrap ρ) : Option Ordering :=
  pc w._place v._place

/-- The lt, le, gt, ge methods of PartialOrd: each forwards a binary
Bool comparison to the places. -/
def codRel {π ρ : Type} (rel : π → ρ → Bool) (w : CODWrap π) (v : CODWrap ρ) : Bool :=
  rel w._place v._place

/-- Ord.cmp impl: forwards to the places. -/
def codCmp {π : Type} (cmp : π → π → Ordering) (w v : CODWrap π) : Ordering :=
  cmp w._place v._place

/-- Index impl: forwards indexing, self._place at i. -/
def codIndex {π ι τ : Type} (index : π → ι → τ) (w : CODWrap π) (i : ι) : τ :=
  index w._place i

/-- AsRef and Borrow impls: forward the reference conversion of the
place. -/
def codAsRef {π τ : Type} (conv : π → τ) (w : CODWrap π) : τ :=
  conv w._place

/-- The delegate_ops assignment-operator impls (AddAssign and the rest):
the right operand is taken by reference and the operation is forwarded
to the place. -/
def codOpAssign {π ρ : Type} (f : π → ρ → π) (w : CODWrap π) (r : ρ) : CODWrap π :=
  { _place := f w._place r }

/-- The delegate_ops binary-operator impls (Add and the rest) on a
wrapper reference: the right operand is a reference and the result is
the forwarded operation on the place. -/
def codBinop {π ρ τ : Type} (f : π → ρ → τ) (w : CODWrap π) (r : ρ) : τ :=
  f w._place r

/-! ## The ZeroSafe marker set (src/clear.rs lines 100 to 119) -/

/-- The grammar of Rust types relevant to the zero-safety discussion:
raw pointers, the primitive scalars, mutable references, Box, Arc,
Shared (the Copy raw-pointer wrapper named in src/clearable.rs), plus
scalar types that are Copy and Default but absent from the ZeroSafe
impl list. -/
inductive RustTy where
  | constPtr : RustTy → RustTy
  | mutPtr : RustTy → RustTy
  | isizeTy : RustTy
  | usizeTy : RustTy
  | i8Ty : RustTy
  | u8Ty : RustTy
  | i16Ty : RustTy
  | u16Ty : RustTy
  | i32Ty : RustTy
  | u32Ty : RustTy
  | i64Ty : RustTy
  | u64Ty : RustTy
  | boolTy : RustTy
  | charTy : RustTy
  | f32Ty : RustTy
  | f64Ty : RustTy
  | refMut : RustTy → RustTy
  | boxTy : RustTy → RustTy
  | arcTy : RustTy → RustTy
  | sharedTy : RustTy → RustTy
deriving DecidableEq

/-- The ZeroSafe marker exactly as granted by the unsafe impl list in
src/clear.rs (default build, no nightly feature): raw pointers and the
listed integer scalars, nothing else. -/
def ZeroSafe : RustTy → Bool
  | RustTy.constPtr _ => true
  | RustTy.mutPtr _ => true
  | RustTy.isizeTy => true
  | RustTy.usizeTy => true
  | RustTy.i8Ty => true
  | RustTy.u8Ty => true
  | RustTy.i16Ty => true
  | RustTy.u16Ty => true
  | RustTy.i32Ty => true
  | RustTy.u32Ty => true
  | RustTy.i64Ty => true
  | RustTy.u64Ty => true
  | _ => false

/-- Structural trivially-copyable property (the Copy trait): scalars and
raw pointers are Copy, and so is Shared, the raw-pointer wrapper named
in the src/clearable.rs comments; references with write access, Box and
Arc are not. -/
def isCopy : RustTy → Bool
  | RustTy.constPtr _ => true
  | RustTy.mutPtr _ => true
  | RustTy.isizeTy => true
  | RustTy.usizeTy => true
  | RustTy.i8Ty => true
  | RustTy.u8Ty => true
  | RustTy.i16Ty => true
  | RustTy.u16Ty => true
  | RustTy.i32Ty => true
  | RustTy.u32Ty => true
  | RustTy.i64Ty => true
  | RustTy.u64Ty => true
  | RustTy.boolTy => true
  | RustTy.charTy => true
  | RustTy.f32Ty => true
  | RustTy.f64Ty => true
  | RustTy.sharedTy _ => true
  | _ => false

/-- Plain scalar types of the model. -/
def isScalar : RustTy → Bool
  | RustTy.isizeTy => true
  | RustTy.usizeTy => true
  | RustTy.i8Ty => true
  | RustTy.u8Ty => true
  | RustTy.i16Ty => true
  | RustTy.u16Ty => true
  | RustTy.i32Ty => true
  | RustTy.u32Ty => true
  | RustTy.i64Ty => true
  | RustTy.u64Ty => true
  | RustTy.boolTy => true
  | RustTy.charTy => true
  | RustTy.f32Ty => true
  | RustTy.f64Ty => true
  | _ => false

/-- Raw pointer types of the model. -/
def isRawPtr : RustTy → Bool
  | RustTy.constPtr _ => true
  | RustTy.mutPtr _ => true
  | _ => false

/-! ## The optimizer barrier (src/hide.rs) -/

/-- State visible to a barrier call: the byte region it is given, plus
the process-wide DUMMY atomic used only by the fallback realization. The
result pair is the region and the DUMMY value after the call; none of
the realizations produce a value for the caller. -/
def hideNightly (_addr : Nat) (region : Bytes) (dummy : Nat) : Bytes × Nat :=
  (region, dummy)

/-- Modelled from the spec: the body of the external C function
clear_on_drop_hide is a separately compiled compilation unit, not under
src/; the spec describes it as a minimal opaque no-op that takes the
address and returns it unchanged. -/
def clear_on_drop_hide (p : Nat) : Nat :=
  p

/-- The cc realization of hide_mem_impl: calls clear_on_drop_hide on the
address and discards the result; the region and DUMMY are untouched. -/
def hideCc (addr : Nat) (region : Bytes) (dummy : Nat) : Bytes × Nat :=
  let _r : Nat := clear_on_drop_hide addr
  (region, dummy)

/-- The fallback realization of hide_mem_impl: stores the address into
the DUMMY atomic with release ordering; the region is untouched. -/
def hideFallback (addr : Nat) (region : Bytes) (_dummy : Nat) : Bytes × Nat :=
  (region, addr)

/-- hide_ptr: applies hide_mem to the local pointer variable (a one-cell
region holding the pointer value) and returns the resulting pointer. -/
def hide_ptr (impl : Nat → Bytes → Nat → Bytes × Nat)
    (addr : Nat) (p : Nat) (dummy : Nat) : Nat :=
  ((impl addr [p] dummy).1).headD 0

theorem clearBytes_eq_postZero (tm : TypeModel) (b : Bytes)
    (hlen : b.length = tm.size)
    (hdrop : (tm.dropEffect b).length = b.length) :
    clearBytes tm b = postZero tm := by
  have h0 : List.drop tm.size (tm.dropEffect b) = [] := by
    apply List.drop_eq_nil_of_le
    rw [hdrop, hlen]
  cases hI : tm.initWrite with
  | none =>
      simp [clearBytes, runSteps, clearBody, List.foldl, stepRun, writeFirst,
        h0, postZero, hI]
  | some d =>
      simp [clearBytes, runSteps, clearBody, List.foldl, stepRun, writeFirst,
        h0, postZero, hI]

/-- C1: Clear.clear performs, in order, drop_in_place of the current
contents, an overwrite of the full size_of_val byte representation with
zero bytes, and the in-place initialize of a fresh valid value over the
zeroed bytes; afterwards the location holds the post-zero value of the
type and none of the original bytes remain (the result does not depend
on the original contents). -/
theorem C1_clear_contract (tm : TypeModel) (b : Bytes)
    (hlen : b.length = tm.size)
    (hdrop : (tm.dropEffect b).length = b.length) :
    clearBytes tm b = postZero tm ∧
    clearBody tm = [ClearStep.dropInPlace, ClearStep.writeBytes 0 tm.size,
      ClearStep.hideMem, ClearStep.reinit] :=
  ⟨clearBytes_eq_postZero tm b hlen hdrop, rfl⟩

/-- Witness for C1 at the concrete type model of u32 and a concrete
non-zero input. -/
theorem C1_clear_contract_witness :
    clearBytes tmU32 [1, 2, 3, 4] = postZero tmU32 ∧
    clearBody tmU32 = [ClearStep.dropInPlace, ClearStep.writeBytes 0 tmU32.size,
      ClearStep.hideMem, ClearStep.reinit] :=
  C1_clear_contract tmU32 [1, 2, 3, 4] rfl rfl

/-- C8: in the Clear.clear body, the zero overwrite completes before the
reinitialization step begins: the state just before the final step (the
only reinit, which is last) is all-zero, so a panic inside initialize
leaves only zero bytes at the location, never a mixture of old and new
bytes. -/
theorem C8_zero_before_reinit (tm : TypeModel) (b : Bytes)
    (hlen : b.length = tm.size)
    (hdrop : (tm.dropEffect b).length = b.length) :
    runSteps tm b (List.take 3 (clearBody tm)) = List.replicate tm.size 0 ∧
    List.drop 3 (clearBody tm) = [ClearStep.reinit] := by
  have h0 : List.drop tm.size (tm.dropEffect b) = [] := by
    apply List.drop_eq_nil_of_le
    rw [hdrop, hlen]
  constructor
  · simp [runSteps, clearBody, List.foldl, stepRun, writeFirst, h0]
  · rfl

/-- Witness for C8 at the concrete type model of u32 and a concrete
non-zero input. -/
theorem C8_zero_before_reinit_witness :
    runSteps tmU32 [1, 2, 3, 4] (List.take 3 (clearBody tmU32)) =
      List.replicate tmU32.size 0 ∧
    List.drop 3 (clearBody tmU32) = [ClearStep.reinit] :=
  C8_zero_before_reinit tmU32 [1, 2, 3, 4] rfl rfl


/-- C2: across each single lifecycle path (implicit drop at scope exit;
into_place then scope exit; into_uncleared_place then scope exit) the
Clear.clear zero-fill runs at most once on the wrapped place, and after
either consuming operation the drop glue of the instance is disarmed, so
a later scope exit changes nothing. -/
theorem C2_clear_at_most_once (tm : TypeModel) (slot target : Bytes) :
    countClear (ClearOnDrop.scopeExit tm (ClearOnDrop.new slot target)).trace ≤ 1 ∧
    countClear ((ClearOnDrop.scopeExit tm
      (ClearOnDrop.into_place tm (ClearOnDrop.new slot target)).2)).trace ≤ 1 ∧
    countClear ((ClearOnDrop.scopeExit tm
      (ClearOnDrop.into_uncleared_place (ClearOnDrop.new slot target)).2)).trace ≤ 1 ∧
    ((ClearOnDrop.into_place tm (ClearOnDrop.new slot target)).2).dropEnabled = false ∧
    ((ClearOnDrop.into_uncleared_place (ClearOnDrop.new slot target)).2).dropEnabled = false ∧
    ClearOnDrop.scopeExit tm (ClearOnDrop.into_place tm (ClearOnDrop.new slot target)).2 =
      (ClearOnDrop.into_place tm (ClearOnDrop.new slot target)).2 ∧
    ClearOnDrop.scopeExit tm (ClearOnDrop.into_uncleared_place (ClearOnDrop.new slot target)).2 =
      (ClearOnDrop.into_uncleared_place (ClearOnDrop.new slot target)).2 := by
  refine ⟨?_, ?_, ?_, rfl, rfl, rfl, rfl⟩ <;>
    simp [ClearOnDrop.scopeExit, ClearOnDrop.new, ClearOnDrop.into_place,
      ClearOnDrop.into_uncleared_place, ClearOnDrop.selfClear, countClear,
      List.countP, List.countP.go, isClearEvent]

/-- C3: into_uncleared_place returns the original handle, the
dereferenced content is bit-identical to the wrapped value, and no
clearing happens during this consumption. -/
theorem C3_into_uncleared_preserves (slot target : Bytes) :
    (ClearOnDrop.into_uncleared_place (ClearOnDrop.new slot target)).1 = slot ∧
    ((ClearOnDrop.into_uncleared_place (ClearOnDrop.new slot target)).2).target = target ∧
    countClear ((ClearOnDrop.into_uncleared_place (ClearOnDrop.new slot target)).2).trace = 0 :=
  ⟨rfl, rfl, rfl⟩

/-- C4: into_place returns the original handle bytes unchanged (same
storage, no reallocation) and the dereferenced content equals the post-
zero value of the type: all-zero for slices of zero-safe elements, the
declared default representation for Default types. -/
theorem C4_into_place_zeroes (tm : TypeModel) (slot target : Bytes)
    (hlen : target.length = tm.size)
    (hdrop : (tm.dropEffect target).length = target.length) :
    (ClearOnDrop.into_place tm (ClearOnDrop.new slot target)).1 = slot ∧
    ((ClearOnDrop.into_place tm (ClearOnDrop.new slot target)).2).target = postZero tm := by
  refine ⟨rfl, ?_⟩
  simp [ClearOnDrop.into_place, ClearOnDrop.into_uncleared_place,
    ClearOnDrop.selfClear, ClearOnDrop.new]
  exact clearBytes_eq_postZero tm target hlen hdrop

/-- Witness for C4 at concrete handle bytes, target bytes and the u32
type model. -/
theorem C4_into_place_zeroes_witness :
    (ClearOnDrop.into_place tmU32 (ClearOnDrop.new [9, 9] [1, 2, 3, 4])).1 = [9, 9] ∧
    ((ClearOnDrop.into_place tmU32 (ClearOnDrop.new [9, 9] [1, 2, 3, 4])).2).target =
      postZero tmU32 :=
  C4_into_place_zeroes tmU32 [9, 9] [1, 2, 3, 4] rfl rfl

/-- C6 counterexample: the consuming operations do not overwrite the
internal handle-storage bytes with an empty or zeroed sentinel: at a
concrete wrapper whose slot bytes are [7, 7], after into_uncleared_place
and after into_place the slot still holds [7, 7], which is not the
zeroed sentinel. -/
theorem C6_no_sentinel_counterexample :
    ((ClearOnDrop.into_uncleared_place (ClearOnDrop.new [7, 7] [1, 2, 3, 4])).2).slot = [7, 7] ∧
    ((ClearOnDrop.into_place tmU32 (ClearOnDrop.new [7, 7] [1, 2, 3, 4])).2).slot = [7, 7] ∧
    ¬ ([7, 7] = List.replicate 2 0) :=
  ⟨rfl, rfl, by decide⟩

/-- C6 amended: the consuming operations leave the internal slot bytes
untouched; double clearing is instead prevented by mem.forget, which
disarms the drop glue of the consumed instance entirely, so its Drop
logic never runs and a later scope exit performs no further clearing. -/
theorem C6_forget_amended (tm : TypeModel) (slot target : Bytes) :
    ((ClearOnDrop.into_uncleared_place (ClearOnDrop.new slot target)).2).slot = slot ∧
    ((ClearOnDrop.into_place tm (ClearOnDrop.new slot target)).2).slot = slot ∧
    ((ClearOnDrop.into_uncleared_place (ClearOnDrop.new slot target)).2).dropEnabled = false ∧
    ((ClearOnDrop.into_place tm (ClearOnDrop.new slot target)).2).dropEnabled = false ∧
    ClearOnDrop.scopeExit tm (ClearOnDrop.into_uncleared_place (ClearOnDrop.new slot target)).2 =
      (ClearOnDrop.into_uncleared_place (ClearOnDrop.new slot target)).2 ∧
    countClear ((ClearOnDrop.scopeExit tm
      (ClearOnDrop.into_uncleared_place (ClearOnDrop.new slot target)).2)).trace = 0 :=
  ⟨rfl, rfl, rfl, rfl, rfl, rfl⟩

/-- C10: clone_from is exactly self.clear() followed by the place-level
copy: the clear event precedes the copy event in the trace, the
intermediate state after the clear holds the post-zero value (the old
destination bytes are gone before the copy), and the final content is
the source content. -/
theorem C10_clone_from_clears_first (tm : TypeModel) (s src : WState)
    (hlen : s.target.length = tm.size)
    (hdrop : (tm.dropEffect s.target).length = s.target.length) :
    ClearOnDrop.clone_from tm s src =
      { ClearOnDrop.selfClear tm s with
          target := src.target,
          trace := (ClearOnDrop.selfClear tm s).trace ++ [WEvent.cloneFromPlace] } ∧
    (ClearOnDrop.selfClear tm s).target = postZero tm ∧
    (ClearOnDrop.clone_from tm s src).target = src.target ∧
    (ClearOnDrop.clone_from tm s src).trace =
      s.trace ++ [WEvent.clearInvoked, WEvent.cloneFromPlace] := by
  refine ⟨rfl, ?_, rfl, ?_⟩
  · simpa [ClearOnDrop.selfClear] using clearBytes_eq_postZero tm s.target hlen hdrop
  · simp [ClearOnDrop.clone_from, ClearOnDrop.selfClear]

/-- Witness for C10 at concrete wrapper states and the u32 type model. -/
theorem C10_clone_from_clears_first_witness :
    ClearOnDrop.clone_from tmU32 (ClearOnDrop.new [9, 9] [1, 2, 3, 4])
        (ClearOnDrop.new [8, 8] [5, 6, 7, 8]) =
      { ClearOnDrop.selfClear tmU32 (ClearOnDrop.new [9, 9] [1, 2, 3, 4]) with
          target := (ClearOnDrop.new [8, 8] [5, 6, 7, 8]).target,
          trace := (ClearOnDrop.selfClear tmU32
            (ClearOnDrop.new [9, 9] [1, 2, 3, 4])).trace ++ [WEvent.cloneFromPlace] } ∧
    (ClearOnDrop.selfClear tmU32 (ClearOnDrop.new [9, 9] [1, 2, 3, 4])).target =
      postZero tmU32 ∧
    (ClearOnDrop.clone_from tmU32 (ClearOnDrop.new [9, 9] [1, 2, 3, 4])
        (ClearOnDrop.new [8, 8] [5, 6, 7, 8])).target =
      (ClearOnDrop.new [8, 8] [5, 6, 7, 8]).target ∧
    (ClearOnDrop.clone_from tmU32 (ClearOnDrop.new [9, 9] [1, 2, 3, 4])
        (ClearOnDrop.new [8, 8] [5, 6, 7, 8])).trace =
      (ClearOnDrop.new [9, 9] [1, 2, 3, 4]).trace ++
        [WEvent.clearInvoked, WEvent.cloneFromPlace] :=
  C10_clone_from_clears_first tmU32 (ClearOnDrop.new [9, 9] [1, 2, 3, 4])
    (ClearOnDrop.new [8, 8] [5, 6, 7, 8]) rfl rfl

/-- C5: every forwarded access operation on an active wrapper yields
exactly the result of the same operation applied directly to the wrapped
place: deref, mutation, hashing, equality, ordering, indexing,
reference conversions and the delegated by-reference operators. -/
theorem C5_transparent_forwarding (π ρ ι τ : Type)
    (deref : π → τ) (f : π → π) (hash : π → Nat)
    (eq ne : π → ρ → Bool) (pc : π → ρ → Option Ordering)
    (rel : π → ρ → Bool) (cmp : π → π → Ordering)
    (index : π → ι → τ) (conv : π → τ)
    (ga : π → ρ → π) (gb : π → ρ → τ)
    (w v2 : CODWrap π) (v : CODWrap ρ) (i : ι) (r : ρ) :
    codDeref deref w = deref w._place ∧
    codUpdate f w = { _place := f w._place } ∧
    codHash hash w = hash w._place ∧
    codEq eq w v = eq w._place v._place ∧
    codNe ne w v = ne w._place v._place ∧
    codCmpOpt pc w v = pc w._place v._place ∧
    codRel rel w v = rel w._place v._place ∧
    codCmp cmp w v2 = cmp w._place v2._place ∧
    codIndex index w i = index w._place i ∧
    codAsRef conv w = conv w._place ∧
    codOpAssign ga w r = { _place := ga w._place r } ∧
    codBinop gb w r = gb w._place r :=
  ⟨rfl, rfl, rfl, rfl, rfl, rfl, rfl, rfl, rfl, rfl, rfl, rfl⟩

/-- C7: the zero-safe capability is the closed explicit impl list of
src/clear.rs: every ZeroSafe type is a plain scalar or raw pointer, and
zero-safety is not derived structurally from being trivially copyable:
Shared is Copy yet not ZeroSafe, and even the Copy and Default scalars
bool, char, f32 and f64 are outside the hand-curated list. -/
theorem C7_zerosafe_closed :
    (∀ t : RustTy, (!ZeroSafe t || (isScalar t || isRawPtr t)) = true) ∧
    isCopy (RustTy.sharedTy RustTy.u8Ty) = true ∧
    ZeroSafe (RustTy.sharedTy RustTy.u8Ty) = false ∧
    isCopy RustTy.boolTy = true ∧
    ZeroSafe RustTy.boolTy = false ∧
    ZeroSafe RustTy.u8Ty = true ∧
    ZeroSafe (RustTy.mutPtr RustTy.u8Ty) = true := by
  refine ⟨?_, rfl, rfl, rfl, rfl, rfl, rfl⟩
  intro t
  cases t <;> rfl

/-- C9: the three optimizer-barrier realizations are functionally
equivalent for the caller: each leaves the region it is given unchanged
(the fallback only updates the internal DUMMY sentinel, which is never
read for correctness), hide_ptr returns a pointer equal to its argument
under every realization, and the opaque C function returns its argument
unchanged. -/
theorem C9_barrier_equivalence (addr : Nat) (region : Bytes) (dummy p : Nat) :
    (hideNightly addr region dummy).1 = region ∧
    (hideCc addr region dummy).1 = region ∧
    (hideFallback addr region dummy).1 = region ∧
    (hideCc addr region dummy).1 = (hideNightly addr region dummy).1 ∧
    (hideFallback addr region dummy).1 = (hideNightly addr region dummy).1 ∧
    hide_ptr hideNightly addr p dummy = p ∧
    hide_ptr hideCc addr p dummy = p ∧
    hide_ptr hideFallback addr p dummy = p ∧
    clear_on_drop_hide p = p :=
  ⟨rfl, rfl, rfl, rfl, rfl, rfl, rfl, rfl, rfl⟩
